import Mathlib

/-!
Shallow embedding of the pulse-mcp core (TypeScript) in Lean 4.

The embedding translates the two stateful services of the repository:

* `SystemMonitor` from `src/services/systemStatus.ts` — metrics snapshots,
  alert evaluation (`checkAlerts`), the alert log, `getAlerts`,
  `startMonitoring` / `stopMonitoring`;
* `RemoteManagementService` from the remote-management service file —
  `wakeOnLan`, `shutdownLocal`, `restartLocal`, `pingTarget`,
  `scheduleShutdown`, `cancelScheduledShutdown`, `getOperations`.

JavaScript numbers are modelled as `ℚ` (all values appearing here are exact
decimals), `Math.round` as rounding half towards positive infinity,
`Date.now()` and timestamps as an explicit `now : Int` parameter, and the
outcome of an awaited external action (`execAsync`, `wol.wake`) as an explicit
`ExecResult` parameter: `ok`, or a thrown JavaScript value that is either an
`Error` object carrying a message or a non-`Error` value.  Mutation of `this`
is explicit state passing.
-/

namespace Pulse

/-- JavaScript `Math.round`: round half towards positive infinity.  Written
with the executable `Rat.floor`. -/
def jsRound (q : ℚ) : Int := (q + 1/2).floor

theorem jsRound_eq_floor (q : ℚ) : jsRound q = ⌊q + 1/2⌋ := by
  unfold jsRound
  rw [Rat.floor_def', Rat.floor_def]

/-- JavaScript `x || 0` on a number (`0` is falsy, everything else truthy). -/
def jsOrZero (x : ℚ) : ℚ := if x = 0 then 0 else x

/-- JavaScript `x || d` on an optional number (`undefined` and `0` are falsy). -/
def jsOrElse (x : Option ℚ) (d : ℚ) : ℚ :=
  match x with
  | none => d
  | some v => if v = 0 then d else v

/-- A single quote character, used inside error-message strings. -/
def sq : String := String.singleton (Char.ofNat 39)

/-- `cpu` part of `SystemMetrics` (interface `SystemMetrics` in systemStatus.ts). -/
structure CpuInfo where
  usage : ℚ
  temperature : ℚ
  speed : ℚ
  cores : ℚ
  deriving DecidableEq, Repr

/-- `memory` part of `SystemMetrics`. -/
structure MemoryInfo where
  total : ℚ
  used : ℚ
  free : ℚ
  percentage : ℚ
  deriving DecidableEq, Repr

/-- `disk` part of `SystemMetrics`. -/
structure DiskInfo where
  total : ℚ
  used : ℚ
  free : ℚ
  percentage : ℚ
  deriving DecidableEq, Repr

/-- `network` part of `SystemMetrics`. -/
structure NetworkInfo where
  rx : ℚ
  tx : ℚ
  interfaces : List String
  deriving DecidableEq, Repr

/-- `system` part of `SystemMetrics`. -/
structure SystemInfo where
  platform : String
  uptime : Int
  loadAvg : List ℚ
  processes : ℚ
  deriving DecidableEq, Repr

/-- Interface `SystemMetrics` of systemStatus.ts. -/
structure SystemMetrics where
  cpu : CpuInfo
  memory : MemoryInfo
  disk : DiskInfo
  network : NetworkInfo
  system : SystemInfo
  timestamp : Int
  deriving DecidableEq, Repr

/-- Alert severity: field `type` of interface `SystemAlert` (`'warning' | 'critical'`). -/
inductive AlertType where
  | warning
  | critical
  deriving DecidableEq, Repr

/-- Interface `SystemAlert` of systemStatus.ts. -/
structure SystemAlert where
  id : String
  type : AlertType
  message : String
  value : ℚ
  threshold : ℚ
  timestamp : Int
  deriving DecidableEq, Repr

/-- The cpu-usage block of `checkAlerts` (`if (metrics.cpu.usage > 90) ...`). -/
def cpuAlert (m : SystemMetrics) (now : Int) : Option SystemAlert :=
  if m.cpu.usage > 90 then
    some { id := "cpu-" ++ toString now
           type := if m.cpu.usage > 95 then .critical else .warning
           message := "High CPU usage: " ++ toString m.cpu.usage ++ "%"
           value := m.cpu.usage
           threshold := 90
           timestamp := now }
  else none

/-- The memory-usage block of `checkAlerts` (`if (metrics.memory.percentage > 85) ...`). -/
def memoryAlert (m : SystemMetrics) (now : Int) : Option SystemAlert :=
  if m.memory.percentage > 85 then
    some { id := "memory-" ++ toString now
           type := if m.memory.percentage > 95 then .critical else .warning
           message := "High memory usage: " ++ toString m.memory.percentage ++ "%"
           value := m.memory.percentage
           threshold := 85
           timestamp := now }
  else none

/-- The disk-usage block of `checkAlerts` (`if (metrics.disk.percentage > 80) ...`). -/
def diskAlert (m : SystemMetrics) (now : Int) : Option SystemAlert :=
  if m.disk.percentage > 80 then
    some { id := "disk-" ++ toString now
           type := if m.disk.percentage > 90 then .critical else .warning
           message := "High disk usage: " ++ toString m.disk.percentage ++ "%"
           value := m.disk.percentage
           threshold := 80
           timestamp := now }
  else none

/-- The cpu-temperature block of `checkAlerts` (`if (metrics.cpu.temperature > 70) ...`). -/
def tempAlert (m : SystemMetrics) (now : Int) : Option SystemAlert :=
  if m.cpu.temperature > 70 then
    some { id := "temp-" ++ toString now
           type := if m.cpu.temperature > 80 then .critical else .warning
           message := "High CPU temperature: " ++ toString m.cpu.temperature ++ "°C"
           value := m.cpu.temperature
           threshold := 70
           timestamp := now }
  else none

/-- The list `newAlerts` that `checkAlerts(metrics)` builds: the four threshold
blocks pushed in source order. -/
def checkAlertsList (m : SystemMetrics) (now : Int) : List SystemAlert :=
  (cpuAlert m now).toList ++ (memoryAlert m now).toList ++
    (diskAlert m now).toList ++ (tempAlert m now).toList

/-- The mutable state of class `SystemMonitor`, together with the bookkeeping of
live `setInterval` timers in the runtime (`liveTimers`, `nextTimerId`), which is
how the event loop's timer table is made explicit. -/
structure MonitorState where
  alerts : List SystemAlert
  isMonitoring : Bool
  monitoringInterval : Option Nat
  liveTimers : List Nat
  nextTimerId : Nat
  deriving DecidableEq, Repr

/-- Method `checkAlerts`: computes `newAlerts`, pushes them onto `this.alerts`,
and returns `newAlerts`. -/
def checkAlerts (s : MonitorState) (m : SystemMetrics) (now : Int) :
    List SystemAlert × MonitorState :=
  let newAlerts := checkAlertsList m now
  (newAlerts, { s with alerts := s.alerts ++ newAlerts })

/-- JavaScript `arr.slice(-n)` for a non-negative number `n`: the last
`min n arr.length` elements, except that `slice(-0)` is `slice(0)`, the whole
array. -/
def jsSliceLast (l : List SystemAlert) (n : Nat) : List SystemAlert :=
  if n = 0 then l else l.drop (l.length - n)

/-- Method `getAlerts`: `this.alerts.slice(-50)`. -/
def getAlerts (s : MonitorState) : List SystemAlert :=
  jsSliceLast s.alerts 50

/-- Method `clearAlerts`: `this.alerts = []`. -/
def clearAlerts (s : MonitorState) : MonitorState :=
  { s with alerts := [] }

/-- Method `startMonitoring`: early return when already monitoring; otherwise
set the flag and create one interval timer. -/
def startMonitoring (s : MonitorState) : MonitorState :=
  if s.isMonitoring then s
  else
    { s with isMonitoring := true
             monitoringInterval := some s.nextTimerId
             liveTimers := s.liveTimers ++ [s.nextTimerId]
             nextTimerId := s.nextTimerId + 1 }

/-- Method `stopMonitoring`: clear the interval when one is set; always reset
the flag. -/
def stopMonitoring (s : MonitorState) : MonitorState :=
  match s.monitoringInterval with
  | some tid =>
      { s with monitoringInterval := none
               isMonitoring := false
               liveTimers := s.liveTimers.filter (fun t => t ≠ tid) }
  | none => { s with isMonitoring := false }

/-! ## Metrics probe and snapshot construction -/

/-- JavaScript `Math.floor`.  Written with the executable `Rat.floor`. -/
def jsFloor (q : ℚ) : Int := q.floor

/-- One entry of the `si.fsSize()` array, the fields `getDetailedMetrics`
reads. -/
structure DiskEntry where
  size : ℚ
  used : ℚ
  available : ℚ
  deriving DecidableEq, Repr

/-- One entry of the `si.networkStats()` array, the fields read. -/
structure NetEntry where
  iface : String
  rxSec : ℚ
  txSec : ℚ
  deriving DecidableEq, Repr

/-- The data a successful probe (`Promise.all` of the `si` calls, plus
`si.cpuTemperature().catch(() => ({main: 0}))`) delivers to
`getDetailedMetrics`. -/
structure ProbeData where
  cpuSpeed : ℚ
  cpuCores : ℚ
  memTotal : ℚ
  memUsed : ℚ
  memFree : ℚ
  disks : List DiskEntry
  nets : List NetEntry
  currentLoad : ℚ
  avgLoad : ℚ
  processesAll : ℚ
  cpuTempMain : ℚ
  deriving DecidableEq, Repr

/-- The process-level values read by the fallback path and the `system`
section: `process.platform`, `process.uptime()`, `process.memoryUsage()`. -/
structure ProcEnv where
  platform : String
  uptime : ℚ
  heapTotal : ℚ
  heapUsed : ℚ
  deriving DecidableEq, Repr

/-- Private method `getFallbackMetrics`. -/
def getFallbackMetrics (env : ProcEnv) (now : Int) : SystemMetrics :=
  { cpu := { usage := 0, temperature := 0, speed := 0, cores := 0 }
    memory :=
      { total := env.heapTotal
        used := env.heapUsed
        free := env.heapTotal - env.heapUsed
        percentage := (jsRound (env.heapUsed / env.heapTotal * 100) : ℚ) }
    disk := { total := 0, used := 0, free := 0, percentage := 0 }
    network := { rx := 0, tx := 0, interfaces := [] }
    system :=
      { platform := env.platform
        uptime := jsFloor env.uptime
        loadAvg := [0]
        processes := 0 }
    timestamp := now }

/-- Method `getDetailedMetrics`: `probe = none` models the `try` block throwing
(one of the `Promise.all` members rejecting), which the `catch` turns into the
fallback snapshot; `probe = some p` is a successful probe. -/
def getDetailedMetrics (probe : Option ProbeData) (env : ProcEnv) (now : Int) :
    SystemMetrics :=
  match probe with
  | none => getFallbackMetrics env now
  | some p =>
      { cpu :=
          { usage := (jsRound (jsOrZero p.currentLoad) : ℚ)
            temperature := (jsRound (jsOrZero p.cpuTempMain) : ℚ)
            speed := jsOrZero p.cpuSpeed
            cores := jsOrZero p.cpuCores }
        memory :=
          { total := p.memTotal
            used := p.memUsed
            free := p.memFree
            percentage := (jsRound (p.memUsed / p.memTotal * 100) : ℚ) }
        disk :=
          { total := jsOrElse (p.disks.head?.map DiskEntry.size) 0
            used := jsOrElse (p.disks.head?.map DiskEntry.used) 0
            free := jsOrElse (p.disks.head?.map DiskEntry.available) 0
            percentage :=
              (jsRound (jsOrElse (p.disks.head?.map DiskEntry.used) 0 /
                jsOrElse (p.disks.head?.map DiskEntry.size) 1 * 100) : ℚ) }
        network :=
          { rx := jsOrElse (p.nets.head?.map NetEntry.rxSec) 0
            tx := jsOrElse (p.nets.head?.map NetEntry.txSec) 0
            interfaces := p.nets.map NetEntry.iface }
        system :=
          { platform := env.platform
            uptime := jsFloor env.uptime
            loadAvg := if p.avgLoad ≠ 0 then [p.avgLoad] else [0]
            processes := jsOrZero p.processesAll }
        timestamp := now }

/-! ## Remote management service -/

/-- A thrown JavaScript value as the catch handlers see it: an `Error` object
with a message, or some non-`Error` value. -/
inductive JsThrown where
  | errorObj (message : String)
  | nonError
  deriving DecidableEq, Repr

/-- Outcome of an awaited external action (`execAsync(command)` or the promise
wrapping `wol.wake`): fulfilled, or rejected with a thrown value. -/
inductive ExecResult where
  | ok
  | thrown (e : JsThrown)
  deriving DecidableEq, Repr

/-- The catch handlers' `error instanceof Error ? error.message : fallback`. -/
def caughtMessage (fallback : String) : JsThrown → String
  | .errorObj m => m
  | .nonError => fallback

/-- Interface `RemoteTarget`. -/
structure RemoteTarget where
  name : String
  ip : String
  mac : String
  platform : Option String
  port : Option Int
  deriving DecidableEq, Repr

/-- Field `operation` of interface `RemoteOperation`
(`'wake' | 'shutdown' | 'restart' | 'status'`). -/
inductive OpKind where
  | wake
  | shutdown
  | restart
  | status
  deriving DecidableEq, Repr

/-- Field `status` of interface `RemoteOperation`
(`'pending' | 'success' | 'failed'`). -/
inductive OpStatus where
  | pending
  | success
  | failed
  deriving DecidableEq, Repr

/-- Interface `RemoteOperation`; `error` and `duration` are optional fields. -/
structure RemoteOperation where
  id : String
  target : String
  operation : OpKind
  status : OpStatus
  timestamp : Int
  error : Option String
  duration : Option Int
  deriving DecidableEq, Repr

/-- The mutable state of class `RemoteManagementService`: the target map (keyed
by name, modelled as the list of entries) and the operations array. -/
structure RemoteState where
  targets : List RemoteTarget
  operations : List RemoteOperation
  deriving DecidableEq, Repr

/-- The `config.remote` flags the service reads. -/
structure RemoteConfig where
  enableWakeOnLan : Bool
  allowSystemControl : Bool
  deriving DecidableEq, Repr

/-- `this.targets.get(name)` on the name-keyed map. -/
def getTarget (s : RemoteState) (name : String) : Option RemoteTarget :=
  s.targets.find? (fun t => t.name = name)

/-- The message of `new Error("Target '...' not found")`. -/
def targetNotFoundMsg (name : String) : String :=
  "Target " ++ sq ++ name ++ sq ++ " not found"

/-- The pending record `wakeOnLan` constructs and pushes first. -/
def wakePending (targetName : String) (now : Int) : RemoteOperation :=
  { id := "wake-" ++ toString now
    target := targetName
    operation := .wake
    status := .pending
    timestamp := now
    error := none
    duration := none }

/-- The settled record `wakeOnLan` leaves behind (the pushed pending object,
mutated in place by the try/catch). -/
def wakeOnLanOp (cfg : RemoteConfig) (s : RemoteState) (targetName : String)
    (now : Int) (wol : ExecResult) (elapsed : Int) : RemoteOperation :=
  if ¬ cfg.enableWakeOnLan then
    { wakePending targetName now with
        status := .failed
        error := some "Wake-on-LAN is disabled in configuration" }
  else
    match getTarget s targetName with
    | none =>
        { wakePending targetName now with
            status := .failed
            error := some (targetNotFoundMsg targetName) }
    | some _ =>
        match wol with
        | .ok =>
            { wakePending targetName now with
                status := .success, duration := some elapsed }
        | .thrown e =>
            { wakePending targetName now with
                status := .failed
                error := some (caughtMessage "Unknown error" e) }

/-- Method `wakeOnLan(targetName)`.  `now` is `Date.now()` at entry, `wol` the
outcome of the awaited `wol.wake` promise, `elapsed` the wall-clock milliseconds
the await took.  Returns the settled operation and the updated state; the
pushed pending record and the returned record are the same object in JS, so the
state holds the settled record. -/
def wakeOnLan (cfg : RemoteConfig) (s : RemoteState) (targetName : String)
    (now : Int) (wol : ExecResult) (elapsed : Int) :
    RemoteOperation × RemoteState :=
  (wakeOnLanOp cfg s targetName now wol elapsed,
   { s with operations := s.operations ++ [wakeOnLanOp cfg s targetName now wol elapsed] })

/-- The platform branch of `shutdownLocal`. -/
def shutdownCommand (platform : String) : Option String :=
  if platform = "win32" then some "shutdown /s /t 10"
  else if platform = "darwin" then some "sudo shutdown -h +1"
  else if platform = "linux" then some "sudo shutdown -h +1"
  else none

/-- The pending record `shutdownLocal` constructs and pushes first. -/
def shutdownPending (now : Int) : RemoteOperation :=
  { id := "shutdown-" ++ toString now
    target := "localhost"
    operation := .shutdown
    status := .pending
    timestamp := now
    error := none
    duration := none }

/-- The settled record `shutdownLocal` leaves behind. -/
def shutdownLocalOp (cfg : RemoteConfig) (platform : String)
    (now : Int) (exec : ExecResult) (elapsed : Int) : RemoteOperation :=
  if ¬ cfg.allowSystemControl then
    { shutdownPending now with
        status := .failed
        error := some "System control is disabled in configuration" }
  else
    match shutdownCommand platform with
    | none =>
        { shutdownPending now with
            status := .failed
            error := some ("Shutdown not supported on platform: " ++ platform) }
    | some _ =>
        match exec with
        | .ok => { shutdownPending now with status := .success, duration := some elapsed }
        | .thrown e =>
            { shutdownPending now with
                status := .failed
                error := some (caughtMessage "Unknown error" e) }

/-- Method `shutdownLocal()`; `exec` is the outcome of `execAsync(command)`. -/
def shutdownLocal (cfg : RemoteConfig) (s : RemoteState) (platform : String)
    (now : Int) (exec : ExecResult) (elapsed : Int) :
    RemoteOperation × RemoteState :=
  (shutdownLocalOp cfg platform now exec elapsed,
   { s with operations := s.operations ++ [shutdownLocalOp cfg platform now exec elapsed] })

/-- The platform branch of `restartLocal`. -/
def restartCommand (platform : String) : Option String :=
  if platform = "win32" then some "shutdown /r /t 10"
  else if platform = "darwin" then some "sudo shutdown -r +1"
  else if platform = "linux" then some "sudo reboot"
  else none

/-- The pending record `restartLocal` constructs and pushes first. -/
def restartPending (now : Int) : RemoteOperation :=
  { id := "restart-" ++ toString now
    target := "localhost"
    operation := .restart
    status := .pending
    timestamp := now
    error := none
    duration := none }

/-- The settled record `restartLocal` leaves behind. -/
def restartLocalOp (cfg : RemoteConfig) (platform : String)
    (now : Int) (exec : ExecResult) (elapsed : Int) : RemoteOperation :=
  if ¬ cfg.allowSystemControl then
    { restartPending now with
        status := .failed
        error := some "System control is disabled in configuration" }
  else
    match restartCommand platform with
    | none =>
        { restartPending now with
            status := .failed
            error := some ("Restart not supported on platform: " ++ platform) }
    | some _ =>
        match exec with
        | .ok => { restartPending now with status := .success, duration := some elapsed }
        | .thrown e =>
            { restartPending now with
                status := .failed
                error := some (caughtMessage "Unknown error" e) }

/-- Method `restartLocal()`. -/
def restartLocal (cfg : RemoteConfig) (s : RemoteState) (platform : String)
    (now : Int) (exec : ExecResult) (elapsed : Int) :
    RemoteOperation × RemoteState :=
  (restartLocalOp cfg platform now exec elapsed,
   { s with operations := s.operations ++ [restartLocalOp cfg platform now exec elapsed] })

/-- The ping command line built by `pingTarget` for a target's ip. -/
def pingCommand (platform ip : String) : String :=
  if platform = "win32" then "ping -n 1 " ++ ip
  else "ping -c 1 " ++ ip

/-- The pending record `pingTarget` constructs and pushes first. -/
def pingPending (targetName : String) (now : Int) : RemoteOperation :=
  { id := "ping-" ++ toString now
    target := targetName
    operation := .status
    status := .pending
    timestamp := now
    error := none
    duration := none }

/-- The settled record `pingTarget` leaves behind.  The catch handler's
fallback message is `Host unreachable`, used only when the thrown value is not
an `Error`. -/
def pingTargetOp (s : RemoteState) (targetName platform : String)
    (now : Int) (exec : ExecResult) (elapsed : Int) : RemoteOperation :=
  match getTarget s targetName with
  | none =>
      { pingPending targetName now with
          status := .failed
          error := some (targetNotFoundMsg targetName) }
  | some t =>
      let _command := pingCommand platform t.ip
      match exec with
      | .ok => { pingPending targetName now with status := .success, duration := some elapsed }
      | .thrown e =>
          { pingPending targetName now with
              status := .failed
              error := some (caughtMessage "Host unreachable" e) }

/-- Method `pingTarget(targetName)`. -/
def pingTarget (s : RemoteState) (targetName platform : String)
    (now : Int) (exec : ExecResult) (elapsed : Int) :
    RemoteOperation × RemoteState :=
  (pingTargetOp s targetName platform now exec elapsed,
   { s with operations := s.operations ++ [pingTargetOp s targetName platform now exec elapsed] })

/-- JavaScript `this.operations.slice(-limit)` for a non-negative `limit`:
`slice(-0)` is the whole array, otherwise the last `min limit length`
elements. -/
def jsSliceLastOps (l : List RemoteOperation) (n : Nat) : List RemoteOperation :=
  if n = 0 then l else l.drop (l.length - n)

/-- Method `getOperations(limit = 50)`: `this.operations.slice(-limit)`. -/
def getOperations (s : RemoteState) (limit : Nat) : List RemoteOperation :=
  jsSliceLastOps s.operations limit

/-- Method `getOperationsByTarget(targetName, limit = 20)`. -/
def getOperationsByTarget (s : RemoteState) (targetName : String) (limit : Nat) :
    List RemoteOperation :=
  jsSliceLastOps (s.operations.filter (fun op => op.target = targetName)) limit

/-- The platform branch of `scheduleShutdown`, with the delay scaled to seconds
on Windows and kept in minutes on darwin/linux. -/
def scheduleShutdownCommand (platform : String) (delayMinutes : Int) : Option String :=
  if platform = "win32" then some ("shutdown /s /t " ++ toString (delayMinutes * 60))
  else if platform = "darwin" then some ("sudo shutdown -h +" ++ toString delayMinutes)
  else if platform = "linux" then some ("sudo shutdown -h +" ++ toString delayMinutes)
  else none

/-- The message of the range-validation `Error` in `scheduleShutdown`. -/
def delayRangeMsg : String := "Delay must be between 1 and 1440 minutes"

/-- The pending record `scheduleShutdown` constructs and pushes first. -/
def scheduledShutdownPending (now : Int) : RemoteOperation :=
  { id := "scheduled-shutdown-" ++ toString now
    target := "localhost"
    operation := .shutdown
    status := .pending
    timestamp := now
    error := none
    duration := none }

/-- The settled record `scheduleShutdown` leaves behind. -/
def scheduleShutdownOp (cfg : RemoteConfig) (delayMinutes : Int)
    (platform : String) (now : Int) (exec : ExecResult) (elapsed : Int) :
    RemoteOperation :=
  if ¬ cfg.allowSystemControl then
    { scheduledShutdownPending now with
        status := .failed
        error := some "System control is disabled in configuration" }
  else if delayMinutes < 1 ∨ delayMinutes > 1440 then
    { scheduledShutdownPending now with status := .failed, error := some delayRangeMsg }
  else
    match scheduleShutdownCommand platform delayMinutes with
    | none =>
        { scheduledShutdownPending now with
            status := .failed
            error := some ("Scheduled shutdown not supported on platform: " ++ platform) }
    | some _ =>
        match exec with
        | .ok =>
            { scheduledShutdownPending now with
                status := .success, duration := some elapsed }
        | .thrown e =>
            { scheduledShutdownPending now with
                status := .failed
                error := some (caughtMessage "Unknown error" e) }

/-- Method `scheduleShutdown(delayMinutes)`. -/
def scheduleShutdown (cfg : RemoteConfig) (s : RemoteState) (delayMinutes : Int)
    (platform : String) (now : Int) (exec : ExecResult) (elapsed : Int) :
    RemoteOperation × RemoteState :=
  (scheduleShutdownOp cfg delayMinutes platform now exec elapsed,
   { s with operations :=
       s.operations ++ [scheduleShutdownOp cfg delayMinutes platform now exec elapsed] })

/-- The platform branch of `cancelScheduledShutdown`. -/
def cancelShutdownCommand (platform : String) : Option String :=
  if platform = "win32" then some "shutdown /a"
  else if platform = "darwin" ∨ platform = "linux" then some "sudo shutdown -c"
  else none

/-- The pending record `cancelScheduledShutdown` constructs and pushes first. -/
def cancelShutdownPending (now : Int) : RemoteOperation :=
  { id := "cancel-shutdown-" ++ toString now
    target := "localhost"
    operation := .shutdown
    status := .pending
    timestamp := now
    error := none
    duration := none }

/-- The settled record `cancelScheduledShutdown` leaves behind. -/
def cancelScheduledShutdownOp (cfg : RemoteConfig) (platform : String)
    (now : Int) (exec : ExecResult) (elapsed : Int) : RemoteOperation :=
  if ¬ cfg.allowSystemControl then
    { cancelShutdownPending now with
        status := .failed
        error := some "System control is disabled in configuration" }
  else
    match cancelShutdownCommand platform with
    | none =>
        { cancelShutdownPending now with
            status := .failed
            error := some ("Cancel shutdown not supported on platform: " ++ platform) }
    | some _ =>
        match exec with
        | .ok => { cancelShutdownPending now with status := .success, duration := some elapsed }
        | .thrown e =>
            { cancelShutdownPending now with
                status := .failed
                error := some (caughtMessage "Unknown error" e) }

/-- Method `cancelScheduledShutdown()`. -/
def cancelScheduledShutdown (cfg : RemoteConfig) (s : RemoteState)
    (platform : String) (now : Int) (exec : ExecResult) (elapsed : Int) :
    RemoteOperation × RemoteState :=
  (cancelScheduledShutdownOp cfg platform now exec elapsed,
   { s with operations := s.operations ++ [cancelScheduledShutdownOp cfg platform now exec elapsed] })

/-! ## Fixtures and helper lemmas -/

/-- A snapshot fixture with the four alert-relevant readings set and everything
else zeroed. -/
def mkMetrics (cpuU cpuT memP diskP : ℚ) : SystemMetrics :=
  { cpu := { usage := cpuU, temperature := cpuT, speed := 0, cores := 0 }
    memory := { total := 0, used := 0, free := 0, percentage := memP }
    disk := { total := 0, used := 0, free := 0, percentage := diskP }
    network := { rx := 0, tx := 0, interfaces := [] }
    system := { platform := "linux", uptime := 0, loadAvg := [0], processes := 0 }
    timestamp := 0 }

/-- The alert severities that an evaluation produced for the kind whose
(fixed) threshold field is `t`; the four kinds carry pairwise distinct
threshold values 90, 85, 80, 70. -/
def alertTypesAt (t : ℚ) (l : List SystemAlert) : List AlertType :=
  (l.filter (fun a => decide (a.threshold = t))).map SystemAlert.type

theorem filter_toList_of_ne (o : Option SystemAlert) (t : ℚ)
    (h : ∀ a, o = some a → a.threshold ≠ t) :
    o.toList.filter (fun a => decide (a.threshold = t)) = [] := by
  cases o with
  | none => rfl
  | some a => simp [h a rfl]

theorem filter_toList_of_eq (o : Option SystemAlert) (t : ℚ)
    (h : ∀ a, o = some a → a.threshold = t) :
    o.toList.filter (fun a => decide (a.threshold = t)) = o.toList := by
  cases o with
  | none => rfl
  | some a => simp [h a rfl]

theorem cpuAlert_threshold (m : SystemMetrics) (now : Int) :
    ∀ a, cpuAlert m now = some a → a.threshold = 90 := by
  intro a ha
  unfold cpuAlert at ha
  split at ha
  · rw [Option.some_inj] at ha
    rw [← ha]
  · simp at ha

theorem memoryAlert_threshold (m : SystemMetrics) (now : Int) :
    ∀ a, memoryAlert m now = some a → a.threshold = 85 := by
  intro a ha
  unfold memoryAlert at ha
  split at ha
  · rw [Option.some_inj] at ha
    rw [← ha]
  · simp at ha

theorem diskAlert_threshold (m : SystemMetrics) (now : Int) :
    ∀ a, diskAlert m now = some a → a.threshold = 80 := by
  intro a ha
  unfold diskAlert at ha
  split at ha
  · rw [Option.some_inj] at ha
    rw [← ha]
  · simp at ha

theorem tempAlert_threshold (m : SystemMetrics) (now : Int) :
    ∀ a, tempAlert m now = some a → a.threshold = 70 := by
  intro a ha
  unfold tempAlert at ha
  split at ha
  · rw [Option.some_inj] at ha
    rw [← ha]
  · simp at ha

theorem alertTypesAt_90 (m : SystemMetrics) (now : Int) :
    alertTypesAt 90 (checkAlertsList m now) =
      (cpuAlert m now).toList.map SystemAlert.type := by
  unfold alertTypesAt checkAlertsList
  rw [List.filter_append, List.filter_append, List.filter_append]
  rw [filter_toList_of_eq _ _ (cpuAlert_threshold m now),
      filter_toList_of_ne _ _ (fun a ha => by rw [memoryAlert_threshold m now a ha]; norm_num),
      filter_toList_of_ne _ _ (fun a ha => by rw [diskAlert_threshold m now a ha]; norm_num),
      filter_toList_of_ne _ _ (fun a ha => by rw [tempAlert_threshold m now a ha]; norm_num)]
  simp

theorem alertTypesAt_85 (m : SystemMetrics) (now : Int) :
    alertTypesAt 85 (checkAlertsList m now) =
      (memoryAlert m now).toList.map SystemAlert.type := by
  unfold alertTypesAt checkAlertsList
  rw [List.filter_append, List.filter_append, List.filter_append]
  rw [filter_toList_of_eq _ _ (memoryAlert_threshold m now),
      filter_toList_of_ne _ _ (fun a ha => by rw [cpuAlert_threshold m now a ha]; norm_num),
      filter_toList_of_ne _ _ (fun a ha => by rw [diskAlert_threshold m now a ha]; norm_num),
      filter_toList_of_ne _ _ (fun a ha => by rw [tempAlert_threshold m now a ha]; norm_num)]
  simp

theorem alertTypesAt_80 (m : SystemMetrics) (now : Int) :
    alertTypesAt 80 (checkAlertsList m now) =
      (diskAlert m now).toList.map SystemAlert.type := by
  unfold alertTypesAt checkAlertsList
  rw [List.filter_append, List.filter_append, List.filter_append]
  rw [filter_toList_of_eq _ _ (diskAlert_threshold m now),
      filter_toList_of_ne _ _ (fun a ha => by rw [cpuAlert_threshold m now a ha]; norm_num),
      filter_toList_of_ne _ _ (fun a ha => by rw [memoryAlert_threshold m now a ha]; norm_num),
      filter_toList_of_ne _ _ (fun a ha => by rw [tempAlert_threshold m now a ha]; norm_num)]
  simp

theorem alertTypesAt_70 (m : SystemMetrics) (now : Int) :
    alertTypesAt 70 (checkAlertsList m now) =
      (tempAlert m now).toList.map SystemAlert.type := by
  unfold alertTypesAt checkAlertsList
  rw [List.filter_append, List.filter_append, List.filter_append]
  rw [filter_toList_of_eq _ _ (tempAlert_threshold m now),
      filter_toList_of_ne _ _ (fun a ha => by rw [cpuAlert_threshold m now a ha]; norm_num),
      filter_toList_of_ne _ _ (fun a ha => by rw [memoryAlert_threshold m now a ha]; norm_num),
      filter_toList_of_ne _ _ (fun a ha => by rw [diskAlert_threshold m now a ha]; norm_num)]
  simp

/-! ## C1: alert threshold boundaries -/

/-- C1 counterexample: the claim's boundary behaviour fails at the thresholds
themselves.  At `cpuUsagePercent = 95` the claim demands a critical cpu-usage
alert, but the evaluation produces exactly one alert and it is not critical
(the code tests `> 95`, not `≥ 95`); at `cpuUsagePercent = 90` the claim
demands a warning alert, but the evaluation produces no alert at all (the code
tests `> 90`, not `≥ 90`). -/
theorem c1_claim_counterexample :
    (95:ℚ) ≥ 95 ∧
    ((checkAlertsList (mkMetrics 95 0 0 0) 0).filter
        (fun a => decide (a.type = AlertType.critical))).length = 0 ∧
    (checkAlertsList (mkMetrics 95 0 0 0) 0).length = 1 ∧
    (90:ℚ) ≥ 90 ∧ (90:ℚ) < 95 ∧
    (checkAlertsList (mkMetrics 90 0 0 0) 0).length = 0 :=
  ⟨by norm_num, by decide, by decide, by norm_num, by norm_num, by decide⟩

/-- C1 (amended): for every snapshot, the evaluation produces a cpu-usage alert
with severity critical when `cpuUsagePercent > 95`, a warning alert when
`90 < cpuUsagePercent ≤ 95`, and no cpu-usage alert when
`cpuUsagePercent ≤ 90` (strict thresholds, not the claim's `≥`); analogously,
memory-usage fires strictly above 85 with critical strictly above 95,
disk-usage strictly above 80 / critical strictly above 90, and cpu-temperature
strictly above 70 / critical strictly above 80, the critical grade taking
precedence when the critical bound is exceeded. -/
theorem checkAlerts_severity_classes (m : SystemMetrics) (now : Int) :
    alertTypesAt 90 (checkAlertsList m now) =
      (if 95 < m.cpu.usage then [AlertType.critical]
       else if 90 < m.cpu.usage then [AlertType.warning] else []) ∧
    alertTypesAt 85 (checkAlertsList m now) =
      (if 95 < m.memory.percentage then [AlertType.critical]
       else if 85 < m.memory.percentage then [AlertType.warning] else []) ∧
    alertTypesAt 80 (checkAlertsList m now) =
      (if 90 < m.disk.percentage then [AlertType.critical]
       else if 80 < m.disk.percentage then [AlertType.warning] else []) ∧
    alertTypesAt 70 (checkAlertsList m now) =
      (if 80 < m.cpu.temperature then [AlertType.critical]
       else if 70 < m.cpu.temperature then [AlertType.warning] else []) := by
  refine ⟨?_, ?_, ?_, ?_⟩
  · rw [alertTypesAt_90]
    unfold cpuAlert
    split_ifs <;> simp_all <;> linarith
  · rw [alertTypesAt_85]
    unfold memoryAlert
    split_ifs <;> simp_all <;> linarith
  · rw [alertTypesAt_80]
    unfold diskAlert
    split_ifs <;> simp_all <;> linarith
  · rw [alertTypesAt_70]
    unfold tempAlert
    split_ifs <;> simp_all <;> linarith

/-! ## C2: alert log bound -/

/-- A fresh `SystemMonitor` state: empty alert log, not monitoring, no timer. -/
def s0 : MonitorState :=
  { alerts := [], isMonitoring := false, monitoringInterval := none
    liveTimers := [], nextTimerId := 0 }

/-- `n` successive `checkAlerts` calls on the same snapshot (each at time 0). -/
def pushMany (s : MonitorState) (m : SystemMetrics) : Nat → MonitorState
  | 0 => s
  | n + 1 => (checkAlerts (pushMany s m n) m 0).2

/-- C2 counterexample: after 51 appends of one alert each, the internal alert
array holds 51 entries — appending a 51st entry does not evict the oldest; the
log itself is not bounded to 50. -/
theorem c2_claim_counterexample :
    (pushMany s0 (mkMetrics 99 0 0 0) 51).alerts.length = 51 ∧ ¬ (51 ≤ 50) :=
  ⟨by decide, by decide⟩

/-- C2 (amended): appending never evicts — the internal alert array grows
without bound (`checkAlerts` appends, preserving existing entries) — but
`getAlerts()` always returns the `min length 50` most recent alerts as a
suffix of the log, i.e. at most the 50 most recent alerts in insertion
order. -/
theorem alertLog_append_and_window (s : MonitorState) (m : SystemMetrics) (now : Int) :
    ((checkAlerts s m now).2).alerts = s.alerts ++ checkAlertsList m now ∧
    (getAlerts s).length = min s.alerts.length 50 ∧
    List.IsSuffix (getAlerts s) s.alerts := by
  refine ⟨rfl, ?_, ?_⟩
  · unfold getAlerts jsSliceLast
    rw [if_neg (by norm_num), List.length_drop]
    omega
  · unfold getAlerts jsSliceLast
    rw [if_neg (by norm_num)]
    exact List.drop_suffix _ _

/-! ## C5: determinism and side effects of the alert evaluation -/

/-- C5 counterexample: `checkAlerts` is neither pure nor deterministic in the
snapshot alone.  Two runs on the same snapshot at different clock readings
produce different alert sequences (the ids embed `Date.now()`), and a run
mutates the component state by appending to the alert log. -/
theorem c5_claim_counterexample :
    checkAlertsList (mkMetrics 99 0 0 0) 0 ≠ checkAlertsList (mkMetrics 99 0 0 0) 1 ∧
    ((checkAlerts s0 (mkMetrics 99 0 0 0) 0).2).alerts ≠ s0.alerts :=
  ⟨by decide, by decide⟩

/-- C5 (amended): the alert sequence returned by `checkAlerts` is a
deterministic function of the snapshot and the clock reading only — it does
not depend on the monitor's state — and the only state change is appending the
produced alerts to the alert log (all other state components are
untouched). -/
theorem checkAlerts_deterministic_append_only (s1 s2 : MonitorState)
    (m : SystemMetrics) (now : Int) :
    (checkAlerts s1 m now).1 = (checkAlerts s2 m now).1 ∧
    (checkAlerts s1 m now).1 = checkAlertsList m now ∧
    ((checkAlerts s1 m now).2).alerts = s1.alerts ++ checkAlertsList m now ∧
    ((checkAlerts s1 m now).2).isMonitoring = s1.isMonitoring ∧
    ((checkAlerts s1 m now).2).monitoringInterval = s1.monitoringInterval ∧
    ((checkAlerts s1 m now).2).liveTimers = s1.liveTimers ∧
    ((checkAlerts s1 m now).2).nextTimerId = s1.nextTimerId :=
  ⟨rfl, rfl, rfl, rfl, rfl, rfl, rfl⟩

/-! ## C9: idempotence of start and stop -/

/-- C9: starting the monitor is idempotent — a second `startMonitoring` is a
no-op and creates no second interval timer (from a non-monitoring state, two
successive starts leave exactly one more live timer than before) — and
`stopMonitoring` is likewise idempotent. -/
theorem startMonitoring_stopMonitoring_idempotent (s : MonitorState) :
    startMonitoring (startMonitoring s) = startMonitoring s ∧
    stopMonitoring (stopMonitoring s) = stopMonitoring s ∧
    (s.isMonitoring = false →
      (startMonitoring (startMonitoring s)).liveTimers.length =
        s.liveTimers.length + 1) := by
  refine ⟨?_, ?_, ?_⟩
  · cases hs : s.isMonitoring with
    | true => simp [startMonitoring, hs]
    | false => simp [startMonitoring, hs]
  · cases hi : s.monitoringInterval with
    | some tid => simp [stopMonitoring, hi]
    | none => simp [stopMonitoring, hi]
  · intro hs
    simp [startMonitoring, hs]

/-- Witness for C9 at a fresh monitor state. -/
theorem startMonitoring_stopMonitoring_idempotent_witness :
    startMonitoring (startMonitoring s0) = startMonitoring s0 ∧
    (startMonitoring (startMonitoring s0)).liveTimers.length =
      s0.liveTimers.length + 1 :=
  ⟨(startMonitoring_stopMonitoring_idempotent s0).1,
   (startMonitoring_stopMonitoring_idempotent s0).2.2 rfl⟩

/-! ## C10: getOperations with limit 0 and positive limits -/

/-- An operation-record fixture. -/
def opFix (i : Int) : RemoteOperation :=
  { id := "ping-" ++ toString i, target := "pc", operation := .status
    status := .success, timestamp := i, error := none, duration := some 1 }

/-- A remote-service state fixture with one target and three logged
operations. -/
def rsFix : RemoteState :=
  { targets := [{ name := "pc", ip := "10.0.0.5", mac := "aa:bb:cc:dd:ee:ff"
                  platform := some "linux", port := none }]
    operations := [opFix 0, opFix 1, opFix 2] }

/-- C10: `getOperations` with `limit = 0` returns the entire retained history
(because `slice(-0)` is `slice(0)`), and with any positive `limit` returns the
last `min limit length` entries, in chronological order (a suffix of the
log). -/
theorem getOperations_limit_zero_and_positive (s : RemoteState) :
    getOperations s 0 = s.operations ∧
    ∀ n : Nat, 0 < n →
      (getOperations s n).length = min n s.operations.length ∧
      List.IsSuffix (getOperations s n) s.operations := by
  refine ⟨rfl, ?_⟩
  intro n hn
  constructor
  · unfold getOperations jsSliceLastOps
    rw [if_neg (Nat.pos_iff_ne_zero.mp hn), List.length_drop]
    omega
  · unfold getOperations jsSliceLastOps
    rw [if_neg (Nat.pos_iff_ne_zero.mp hn)]
    exact List.drop_suffix _ _

/-- Witness for C10 at a concrete three-entry log with limits 0 and 2. -/
theorem getOperations_limit_zero_and_positive_witness :
    getOperations rsFix 0 = rsFix.operations ∧
    (getOperations rsFix 2).length = min 2 rsFix.operations.length ∧
    List.IsSuffix (getOperations rsFix 2) rsFix.operations :=
  ⟨(getOperations_limit_zero_and_positive rsFix).1,
   ((getOperations_limit_zero_and_positive rsFix).2 2 (by norm_num)).1,
   ((getOperations_limit_zero_and_positive rsFix).2 2 (by norm_num)).2⟩

/-! ## C3 and C6: shape of settled operations -/

/-- `durationMillis` is present exactly on success; `error` exactly on
failure. -/
def settledShape (op : RemoteOperation) : Prop :=
  (op.duration.isSome ↔ op.status = .success) ∧
  (op.error.isSome ↔ op.status = .failed)

/-- The returned operation is settled: success or failed, never pending. -/
def settledStatus (op : RemoteOperation) : Prop :=
  op.status = .success ∨ op.status = .failed

theorem wakeOnLanOp_shape (cfg : RemoteConfig) (s : RemoteState)
    (targetName : String) (now : Int) (w : ExecResult) (elapsed : Int) :
    settledShape (wakeOnLanOp cfg s targetName now w elapsed) ∧
    settledStatus (wakeOnLanOp cfg s targetName now w elapsed) := by
  unfold wakeOnLanOp settledShape settledStatus
  split_ifs <;> cases getTarget s targetName <;> cases w <;> simp [wakePending]

theorem shutdownLocalOp_shape (cfg : RemoteConfig) (platform : String)
    (now : Int) (ex : ExecResult) (elapsed : Int) :
    settledShape (shutdownLocalOp cfg platform now ex elapsed) ∧
    settledStatus (shutdownLocalOp cfg platform now ex elapsed) := by
  unfold shutdownLocalOp settledShape settledStatus
  split_ifs <;> cases shutdownCommand platform <;> cases ex <;> simp [shutdownPending]

theorem restartLocalOp_shape (cfg : RemoteConfig) (platform : String)
    (now : Int) (ex : ExecResult) (elapsed : Int) :
    settledShape (restartLocalOp cfg platform now ex elapsed) ∧
    settledStatus (restartLocalOp cfg platform now ex elapsed) := by
  unfold restartLocalOp settledShape settledStatus
  split_ifs <;> cases restartCommand platform <;> cases ex <;> simp [restartPending]

theorem pingTargetOp_shape (s : RemoteState) (targetName platform : String)
    (now : Int) (ex : ExecResult) (elapsed : Int) :
    settledShape (pingTargetOp s targetName platform now ex elapsed) ∧
    settledStatus (pingTargetOp s targetName platform now ex elapsed) := by
  unfold pingTargetOp settledShape settledStatus
  cases getTarget s targetName <;> cases ex <;> simp [pingPending]

theorem scheduleShutdownOp_shape (cfg : RemoteConfig) (dm : Int)
    (platform : String) (now : Int) (ex : ExecResult) (elapsed : Int) :
    settledShape (scheduleShutdownOp cfg dm platform now ex elapsed) ∧
    settledStatus (scheduleShutdownOp cfg dm platform now ex elapsed) := by
  unfold scheduleShutdownOp settledShape settledStatus
  split_ifs <;> cases scheduleShutdownCommand platform dm <;> cases ex <;> simp [scheduledShutdownPending]

theorem cancelScheduledShutdownOp_shape (cfg : RemoteConfig) (platform : String)
    (now : Int) (ex : ExecResult) (elapsed : Int) :
    settledShape (cancelScheduledShutdownOp cfg platform now ex elapsed) ∧
    settledStatus (cancelScheduledShutdownOp cfg platform now ex elapsed) := by
  unfold cancelScheduledShutdownOp settledShape settledStatus
  split_ifs <;> cases cancelShutdownCommand platform <;> cases ex <;> simp [cancelShutdownPending]

/-- Configuration with both remote feature flags off. -/
def cfgOff : RemoteConfig := { enableWakeOnLan := false, allowSystemControl := false }

/-- Configuration with both remote feature flags on. -/
def cfgOn : RemoteConfig := { enableWakeOnLan := true, allowSystemControl := true }

/-- C3 counterexample: a failed operation does not carry `durationMillis`.
`wakeOnLan` with the feature flag off settles as failed with an error string
but leaves `duration` unset — the catch handlers never assign it. -/
theorem c3_claim_counterexample :
    (wakeOnLan cfgOff rsFix "pc" 0 .ok 5).1.status = OpStatus.failed ∧
    (wakeOnLan cfgOff rsFix "pc" 0 .ok 5).1.error =
      some "Wake-on-LAN is disabled in configuration" ∧
    (wakeOnLan cfgOff rsFix "pc" 0 .ok 5).1.duration = none :=
  ⟨by decide, by decide, by decide⟩

/-- C3 (amended): every executor operation returns a settled record in which
`durationMillis` is present exactly when the operation succeeded, and `error`
is present exactly when it failed; in particular a failed operation carries an
error string but no `durationMillis`. -/
theorem operations_duration_error_presence (cfg : RemoteConfig) (s : RemoteState)
    (targetName platform : String) (now : Int) (ex : ExecResult)
    (elapsed dm : Int) :
    settledShape (wakeOnLan cfg s targetName now ex elapsed).1 ∧
    settledShape (shutdownLocal cfg s platform now ex elapsed).1 ∧
    settledShape (restartLocal cfg s platform now ex elapsed).1 ∧
    settledShape (pingTarget s targetName platform now ex elapsed).1 ∧
    settledShape (scheduleShutdown cfg s dm platform now ex elapsed).1 ∧
    settledShape (cancelScheduledShutdown cfg s platform now ex elapsed).1 :=
  ⟨(wakeOnLanOp_shape cfg s targetName now ex elapsed).1,
   (shutdownLocalOp_shape cfg platform now ex elapsed).1,
   (restartLocalOp_shape cfg platform now ex elapsed).1,
   (pingTargetOp_shape s targetName platform now ex elapsed).1,
   (scheduleShutdownOp_shape cfg dm platform now ex elapsed).1,
   (cancelScheduledShutdownOp_shape cfg platform now ex elapsed).1⟩

/-- C6: every executor operation method returns a settled operation (status
success or failed, never pending, and in this total model no fault escapes the
executor boundary), and validation failures — feature flag off, unknown
target, out-of-range delay, unsupported platform — settle as failed with the
corresponding descriptive error rather than being thrown. -/
theorem operations_settled_validation_as_failed (cfg : RemoteConfig)
    (s : RemoteState) (targetName platform : String) (now : Int)
    (ex : ExecResult) (elapsed dm : Int) :
    settledStatus (wakeOnLan cfg s targetName now ex elapsed).1 ∧
    settledStatus (shutdownLocal cfg s platform now ex elapsed).1 ∧
    settledStatus (restartLocal cfg s platform now ex elapsed).1 ∧
    settledStatus (pingTarget s targetName platform now ex elapsed).1 ∧
    settledStatus (scheduleShutdown cfg s dm platform now ex elapsed).1 ∧
    settledStatus (cancelScheduledShutdown cfg s platform now ex elapsed).1 ∧
    (cfg.enableWakeOnLan = false →
      (wakeOnLan cfg s targetName now ex elapsed).1.status = .failed ∧
      (wakeOnLan cfg s targetName now ex elapsed).1.error =
        some "Wake-on-LAN is disabled in configuration") ∧
    (cfg.enableWakeOnLan = true → getTarget s targetName = none →
      (wakeOnLan cfg s targetName now ex elapsed).1.status = .failed ∧
      (wakeOnLan cfg s targetName now ex elapsed).1.error =
        some (targetNotFoundMsg targetName)) ∧
    (cfg.allowSystemControl = true → (dm < 1 ∨ 1440 < dm) →
      (scheduleShutdown cfg s dm platform now ex elapsed).1.status = .failed ∧
      (scheduleShutdown cfg s dm platform now ex elapsed).1.error =
        some delayRangeMsg) ∧
    (cfg.allowSystemControl = true → shutdownCommand platform = none →
      (shutdownLocal cfg s platform now ex elapsed).1.status = .failed ∧
      (shutdownLocal cfg s platform now ex elapsed).1.error =
        some ("Shutdown not supported on platform: " ++ platform)) := by
  refine ⟨(wakeOnLanOp_shape cfg s targetName now ex elapsed).2,
          (shutdownLocalOp_shape cfg platform now ex elapsed).2,
          (restartLocalOp_shape cfg platform now ex elapsed).2,
          (pingTargetOp_shape s targetName platform now ex elapsed).2,
          (scheduleShutdownOp_shape cfg dm platform now ex elapsed).2,
          (cancelScheduledShutdownOp_shape cfg platform now ex elapsed).2,
          ?_, ?_, ?_, ?_⟩
  · intro hflag
    constructor <;> simp [wakeOnLan, wakeOnLanOp, hflag]
  · intro hflag hgt
    constructor <;> simp [wakeOnLan, wakeOnLanOp, hflag, hgt]
  · intro hctl hdm
    constructor <;> simp [scheduleShutdown, scheduleShutdownOp, hctl, hdm]
  · intro hctl hcmd
    constructor <;> simp [shutdownLocal, shutdownLocalOp, hctl, hcmd]

/-- Witness for C6: concrete settled statuses, flag-off, unknown-target,
out-of-range and unsupported-platform validation failures. -/
theorem operations_settled_validation_as_failed_witness :
    settledStatus (wakeOnLan cfgOn rsFix "pc" 0 .ok 1).1 ∧
    ((wakeOnLan cfgOff rsFix "pc" 0 .ok 1).1.status = .failed ∧
      (wakeOnLan cfgOff rsFix "pc" 0 .ok 1).1.error =
        some "Wake-on-LAN is disabled in configuration") ∧
    ((wakeOnLan cfgOn rsFix "ghost" 0 .ok 1).1.status = .failed ∧
      (wakeOnLan cfgOn rsFix "ghost" 0 .ok 1).1.error =
        some (targetNotFoundMsg "ghost")) ∧
    ((scheduleShutdown cfgOn rsFix 0 "linux" 0 .ok 1).1.status = .failed ∧
      (scheduleShutdown cfgOn rsFix 0 "linux" 0 .ok 1).1.error =
        some delayRangeMsg) ∧
    ((shutdownLocal cfgOn rsFix "beos" 0 .ok 1).1.status = .failed ∧
      (shutdownLocal cfgOn rsFix "beos" 0 .ok 1).1.error =
        some ("Shutdown not supported on platform: " ++ "beos")) :=
  ⟨(operations_settled_validation_as_failed cfgOn rsFix "pc" "linux" 0 .ok 1 30).1,
   (operations_settled_validation_as_failed cfgOff rsFix "pc" "linux" 0 .ok 1 30).2.2.2.2.2.2.1 rfl,
   (operations_settled_validation_as_failed cfgOn rsFix "ghost" "linux" 0 .ok 1 30).2.2.2.2.2.2.2.1 rfl (by decide),
   (operations_settled_validation_as_failed cfgOn rsFix "pc" "linux" 0 .ok 1 0).2.2.2.2.2.2.2.2.1 rfl (Or.inl (by norm_num)),
   (operations_settled_validation_as_failed cfgOn rsFix "pc" "beos" 0 .ok 1 30).2.2.2.2.2.2.2.2.2 rfl (by decide)⟩

/-! ## C7: scheduleShutdown range validation and command content -/

/-- C7: with system control enabled, any `delayMinutes` outside `[1, 1440]`
settles as failed with the range-validation error (in particular 0 and 1441);
the mapped command for an in-range delay of 30 contains the scaled value —
1800 seconds on Windows, 30 minutes on linux/darwin — and an in-range delay on
a mapped platform with a succeeding command settles as success. -/
theorem scheduleShutdown_range_and_command (cfg : RemoteConfig) (s : RemoteState)
    (dm : Int) (platform : String) (now elapsed : Int) (ex : ExecResult)
    (hctl : cfg.allowSystemControl = true) :
    ((dm < 1 ∨ 1440 < dm) →
      (scheduleShutdown cfg s dm platform now ex elapsed).1.status = .failed ∧
      (scheduleShutdown cfg s dm platform now ex elapsed).1.error =
        some delayRangeMsg) ∧
    scheduleShutdownCommand "win32" 30 = some "shutdown /s /t 1800" ∧
    scheduleShutdownCommand "linux" 30 = some "sudo shutdown -h +30" ∧
    scheduleShutdownCommand "darwin" 30 = some "sudo shutdown -h +30" ∧
    (1 ≤ dm → dm ≤ 1440 → (scheduleShutdownCommand platform dm).isSome →
      (scheduleShutdown cfg s dm platform now .ok elapsed).1.status = .success ∧
      (scheduleShutdown cfg s dm platform now .ok elapsed).1.duration =
        some elapsed) := by
  refine ⟨?_, by decide, by decide, by decide, ?_⟩
  · intro hdm
    constructor <;> simp [scheduleShutdown, scheduleShutdownOp, hctl, hdm]
  · intro h1 h2 hcmd
    have hnr : ¬ (dm < 1 ∨ 1440 < dm) := by omega
    cases hc : scheduleShutdownCommand platform dm with
    | none => rw [hc] at hcmd; simp at hcmd
    | some c =>
        constructor <;> simp [scheduleShutdown, scheduleShutdownOp, hctl, hnr, hc]

/-- Witness for C7: delays 0 and 1441 fail with the range error; delay 30 on
linux with a succeeding command yields success. -/
theorem scheduleShutdown_range_and_command_witness :
    ((scheduleShutdown cfgOn rsFix 0 "linux" 0 .ok 1).1.status = .failed ∧
      (scheduleShutdown cfgOn rsFix 0 "linux" 0 .ok 1).1.error =
        some delayRangeMsg) ∧
    ((scheduleShutdown cfgOn rsFix 1441 "linux" 0 .ok 1).1.status = .failed ∧
      (scheduleShutdown cfgOn rsFix 1441 "linux" 0 .ok 1).1.error =
        some delayRangeMsg) ∧
    ((scheduleShutdown cfgOn rsFix 30 "linux" 0 .ok 1).1.status = .success ∧
      (scheduleShutdown cfgOn rsFix 30 "linux" 0 .ok 1).1.duration = some 1) :=
  ⟨(scheduleShutdown_range_and_command cfgOn rsFix 0 "linux" 0 1 .ok rfl).1
      (Or.inl (by norm_num)),
   (scheduleShutdown_range_and_command cfgOn rsFix 1441 "linux" 0 1 .ok rfl).1
      (Or.inr (by norm_num)),
   (scheduleShutdown_range_and_command cfgOn rsFix 30 "linux" 0 1 .ok rfl).2.2.2.2
      (by norm_num) (by norm_num) (by decide)⟩

/-! ## C4: ping error reporting -/

/-- C4 counterexample: a failing ping command does not produce the error text
"Host unreachable".  `execAsync` rejects with an `Error` object whose message
names the failed command, and the catch handler stores that message; the
"Host unreachable" fallback applies only to thrown non-`Error` values. -/
theorem c4_claim_counterexample :
    (pingTarget rsFix "pc" "linux" 0
        (.thrown (.errorObj "Command failed: ping -c 1 10.0.0.5")) 0).1.status =
      OpStatus.failed ∧
    (pingTarget rsFix "pc" "linux" 0
        (.thrown (.errorObj "Command failed: ping -c 1 10.0.0.5")) 0).1.error ≠
      some "Host unreachable" :=
  ⟨by decide, by decide⟩

/-- C4 (amended): an unknown target settles as failed with the target-not-found
error; a known target with a succeeding ping command settles as success with a
populated `durationMillis`; a known target with a failing command settles as
failed with the thrown `Error`'s message, the text "Host unreachable" being
used only when the thrown value is not an `Error` object. -/
theorem pingTarget_error_reporting (s : RemoteState) (targetName platform : String)
    (now elapsed : Int) (ex : ExecResult) (msg : String) :
    (getTarget s targetName = none →
      (pingTarget s targetName platform now ex elapsed).1.status = .failed ∧
      (pingTarget s targetName platform now ex elapsed).1.error =
        some (targetNotFoundMsg targetName)) ∧
    (getTarget s targetName ≠ none →
      (pingTarget s targetName platform now .ok elapsed).1.status = .success ∧
      (pingTarget s targetName platform now .ok elapsed).1.duration =
        some elapsed) ∧
    (getTarget s targetName ≠ none →
      (pingTarget s targetName platform now (.thrown (.errorObj msg)) elapsed).1.status = .failed ∧
      (pingTarget s targetName platform now (.thrown (.errorObj msg)) elapsed).1.error =
        some msg) ∧
    (getTarget s targetName ≠ none →
      (pingTarget s targetName platform now (.thrown .nonError) elapsed).1.status = .failed ∧
      (pingTarget s targetName platform now (.thrown .nonError) elapsed).1.error =
        some "Host unreachable") := by
  refine ⟨?_, ?_, ?_, ?_⟩
  · intro h
    constructor <;> simp [pingTarget, pingTargetOp, h]
  · intro h
    obtain ⟨t, ht⟩ := Option.ne_none_iff_exists'.mp h
    constructor <;> simp [pingTarget, pingTargetOp, ht]
  · intro h
    obtain ⟨t, ht⟩ := Option.ne_none_iff_exists'.mp h
    constructor <;> simp [pingTarget, pingTargetOp, ht, caughtMessage]
  · intro h
    obtain ⟨t, ht⟩ := Option.ne_none_iff_exists'.mp h
    constructor <;> simp [pingTarget, pingTargetOp, ht, caughtMessage]

/-- Witness for C4 at the concrete target table: unknown target, reachable
target, and a thrown non-`Error` value. -/
theorem pingTarget_error_reporting_witness :
    ((pingTarget rsFix "ghost" "linux" 0 .ok 1).1.status = .failed ∧
      (pingTarget rsFix "ghost" "linux" 0 .ok 1).1.error =
        some (targetNotFoundMsg "ghost")) ∧
    ((pingTarget rsFix "pc" "linux" 0 .ok 7).1.status = .success ∧
      (pingTarget rsFix "pc" "linux" 0 .ok 7).1.duration = some 7) ∧
    ((pingTarget rsFix "pc" "linux" 0 (.thrown .nonError) 1).1.status = .failed ∧
      (pingTarget rsFix "pc" "linux" 0 (.thrown .nonError) 1).1.error =
        some "Host unreachable") :=
  ⟨(pingTarget_error_reporting rsFix "ghost" "linux" 0 1 .ok "m").1 (by decide),
   (pingTarget_error_reporting rsFix "pc" "linux" 0 7 .ok "m").2.1 (by decide),
   (pingTarget_error_reporting rsFix "pc" "linux" 0 1 .ok "m").2.2.2 (by decide)⟩

/-! ## C8: fallback snapshot and percentage bounds -/

theorem jsRound_nonneg (q : ℚ) (h : 0 ≤ q) : 0 ≤ jsRound q := by
  rw [jsRound_eq_floor, Int.le_floor]
  push_cast
  linarith

theorem jsRound_le_100 (q : ℚ) (h : q ≤ 100) : jsRound q ≤ 100 := by
  rw [jsRound_eq_floor]
  have hlt : (⌊q + 1/2⌋ : Int) < 101 := by
    rw [Int.floor_lt]
    push_cast
    linarith
  omega

theorem jsRound_percent_bounds (u t : ℚ) (h0 : 0 ≤ u) (h1 : u ≤ t) (h2 : 0 < t) :
    0 ≤ ((jsRound (u / t * 100) : ℚ)) ∧ ((jsRound (u / t * 100) : ℚ)) ≤ 100 := by
  have hd0 : 0 ≤ u / t := div_nonneg h0 h2.le
  have hd1 : u / t ≤ 1 := (div_le_one h2).mpr h1
  constructor
  · exact_mod_cast jsRound_nonneg (u / t * 100) (mul_nonneg hd0 (by norm_num))
  · exact_mod_cast jsRound_le_100 (u / t * 100) (by linarith)

/-- The process environment fixture: linux, 10 heap bytes total, 5 used. -/
def envFix : ProcEnv :=
  { platform := "linux", uptime := 0, heapTotal := 10, heapUsed := 5 }

/-- A probe report in which memory `used` exceeds `total`. -/
def probeWeird : ProbeData :=
  { cpuSpeed := 0, cpuCores := 0, memTotal := 2, memUsed := 5, memFree := 0
    disks := [], nets := [], currentLoad := 0, avgLoad := 0, processesAll := 0
    cpuTempMain := 0 }

/-- A well-formed probe report (`used ≤ total`). -/
def probeFix : ProbeData :=
  { cpuSpeed := 0, cpuCores := 0, memTotal := 4, memUsed := 1, memFree := 3
    disks := [], nets := [], currentLoad := 0, avgLoad := 0, processesAll := 0
    cpuTempMain := 0 }

/-- C8 counterexample: percentages are not clamped to [0, 100] — when the
probe reports memory `used > total`, the snapshot's memory percentage is 250 —
and the fallback snapshot's fields are not all zeroed: its memory section
carries the process heap figures (used = 5 here). -/
theorem c8_claim_counterexample :
    (getDetailedMetrics (some probeWeird) envFix 0).memory.percentage = 250 ∧
    ¬ ((250:ℚ) ≤ 100) ∧
    (getDetailedMetrics none envFix 0).memory.used = 5 ∧ (5:ℚ) ≠ 0 := by
  refine ⟨?_, by norm_num, rfl, by norm_num⟩
  simp only [getDetailedMetrics, probeWeird, envFix, jsRound_eq_floor]
  rw [show (5:ℚ)/2*100 + 1/2 = 501/2 from by norm_num]
  rw [show ⌊(501:ℚ)/2⌋ = 250 from by rw [Int.floor_eq_iff]; norm_num]
  norm_num

/-- C8 (amended): a failed probe yields the fallback snapshot (never a raised
fault — `getDetailedMetrics` is total): cpu, disk and network sections are
zeroed but the memory section carries the process heap figures; percentages
are `Math.round` of raw ratios, not clamped, and lie in [0, 100] exactly when
the underlying readings satisfy `0 ≤ used ≤ total` with `total > 0`. -/
theorem snapshot_fallback_no_fault (p : ProbeData) (env : ProcEnv) (now : Int) :
    getDetailedMetrics none env now = getFallbackMetrics env now ∧
    (getFallbackMetrics env now).cpu =
      { usage := 0, temperature := 0, speed := 0, cores := 0 } ∧
    (getFallbackMetrics env now).disk =
      { total := 0, used := 0, free := 0, percentage := 0 } ∧
    (getFallbackMetrics env now).network = { rx := 0, tx := 0, interfaces := [] } ∧
    (getFallbackMetrics env now).memory.used = env.heapUsed ∧
    (0 ≤ env.heapUsed → env.heapUsed ≤ env.heapTotal → 0 < env.heapTotal →
      0 ≤ (getFallbackMetrics env now).memory.percentage ∧
      (getFallbackMetrics env now).memory.percentage ≤ 100) ∧
    (0 ≤ p.memUsed → p.memUsed ≤ p.memTotal → 0 < p.memTotal →
      0 ≤ (getDetailedMetrics (some p) env now).memory.percentage ∧
      (getDetailedMetrics (some p) env now).memory.percentage ≤ 100) := by
  refine ⟨rfl, rfl, rfl, rfl, rfl, ?_, ?_⟩
  · intro h0 h1 h2
    exact jsRound_percent_bounds env.heapUsed env.heapTotal h0 h1 h2
  · intro h0 h1 h2
    exact jsRound_percent_bounds p.memUsed p.memTotal h0 h1 h2

/-- Witness for C8 at the concrete environment and a well-formed probe. -/
theorem snapshot_fallback_no_fault_witness :
    (0 ≤ (getFallbackMetrics envFix 0).memory.percentage ∧
      (getFallbackMetrics envFix 0).memory.percentage ≤ 100) ∧
    (0 ≤ (getDetailedMetrics (some probeFix) envFix 0).memory.percentage ∧
      (getDetailedMetrics (some probeFix) envFix 0).memory.percentage ≤ 100) :=
  ⟨(snapshot_fallback_no_fault probeFix envFix 0).2.2.2.2.2.1
      (by decide) (by decide) (by decide),
   (snapshot_fallback_no_fault probeFix envFix 0).2.2.2.2.2.2
      (by decide) (by decide) (by decide)⟩

end Pulse
